import Mathlib

/-!
Verification of the Lily-UI client session and audio core.

This file embeds, as executable Lean definitions, the state and handlers of
the `WebSocketService` class (the revision owning the raw socket, with its
reconnect / heartbeat / registration timers) and the audio paths of the
`Chat` component (`sendAudioChunk`, the `websocket-binary` playback listener,
and the `detectAudio` voice-activity loop).  Machine state is modelled as an
explicit record, the browser event loop as a step function over an event
type, and observable effects (frames written to the socket, listener
notifications, socket closes) as an output record attached to each step.
Theorems about these definitions settle the behavioural properties stated in
the repository's design documentation.
-/

namespace LilyUI

/-- Ready state of a browser WebSocket (`CONNECTING`, `OPEN`, `CLOSING`,
`CLOSED`).  `opened` stands for `WebSocket.OPEN`. -/
inductive ReadyState where
  | connecting
  | opened
  | closing
  | closed
deriving DecidableEq, Repr

/-- The transport socket: the only part of the browser socket object the
service reads is `readyState`. -/
structure Socket where
  readyState : ReadyState
deriving DecidableEq, Repr

/-- The mutable fields of the `WebSocketService` class (WebSocketService.ts,
socket-owning revision).  Timer handles (`reconnectTimeout`,
`heartbeatInterval`, `registrationInterval`) are modelled as `Option Nat`
holding the delay/period in milliseconds when scheduled, `none` when cleared.
Listeners are identified by numeric ids; invoking a listener is recorded as
an output, not modelled as running code. -/
structure WSState where
  ws : Option Socket
  reconnectTimeout : Option Nat
  heartbeatInterval : Option Nat
  registrationInterval : Option Nat
  isConnected : Bool
  isRegistered : Bool
  listeners : List Nat
  connectionListeners : List Nat
  isAppClosing : Bool
  registrationAttempts : Nat
  maxRegistrationAttempts : Nat
deriving DecidableEq, Repr

/-- Observable effects of one handler invocation: frames written to the
socket, `connected` values pushed to connection listeners, message-listener
ids invoked, and whether `ws.close()` was called. -/
structure Out where
  frames : List String
  status : List Bool
  msgs : List Nat
  closedSocket : Bool
deriving DecidableEq, Repr

/-- The silent output: nothing sent, nobody notified, no close issued. -/
def Out.quiet : Out :=
  { frames := [], status := [], msgs := [], closedSocket := false }

/-- `this.ws && this.ws.readyState === WebSocket.OPEN`. -/
def socketOpen (s : WSState) : Bool :=
  match s.ws with
  | some sock => sock.readyState == ReadyState.opened
  | none => false

/-- `this.ws && this.ws.readyState !== WebSocket.CONNECTING` (the guard of
the heartbeat's force-close branch). -/
def socketPresentNotConnecting (s : WSState) : Bool :=
  match s.ws with
  | some sock => sock.readyState != ReadyState.connecting
  | none => false

/-- `ws.close()` on whatever socket is present: the socket transitions to
`closed`; absent socket (`this.ws?.close()` with `ws === null`) is a no-op. -/
def closeSock (ws : Option Socket) : Option Socket :=
  ws.map (fun _ => { readyState := ReadyState.closed })

/-- `sendRegistration()`: writes `"register:default_user"` when the socket is
open, otherwise logs and writes nothing. -/
def sendRegistrationFrames (s : WSState) : List String :=
  if socketOpen s then ["register:default_user"] else []

/-- `connect()` (lines 16-48): clears the reconnect timeout, the heartbeat
interval and the registration interval, resets `isRegistered`, closes any
existing socket and replaces it with a fresh one in `CONNECTING` state.  The
returned Bool records whether a previous socket was closed. -/
def connectFn (s : WSState) : WSState × Bool :=
  ({ s with
      reconnectTimeout := none
      heartbeatInterval := none
      registrationInterval := none
      isRegistered := false
      ws := some { readyState := ReadyState.connecting } },
   s.ws.isSome)

/-- The `onopen` handler (lines 50-86): suppressed when `isAppClosing` (the
socket is merely closed again); otherwise marks connected, notifies
connection listeners with `true`, resets `registrationAttempts` to 0, runs
`startRegistration()` (initial `register` frame + 2000 ms interval) and
starts the 30000 ms heartbeat interval. -/
def onopen (s : WSState) : WSState × Out :=
  if s.isAppClosing then
    ({ s with ws := closeSock s.ws },
     { Out.quiet with closedSocket := s.ws.isSome })
  else
    ({ s with
        isConnected := true
        registrationAttempts := 0
        registrationInterval := some 2000
        heartbeatInterval := some 30000 },
     { Out.quiet with status := [true], frames := sendRegistrationFrames s })

/-- The `onmessage` handler (lines 88-115): suppressed when `isAppClosing`;
`"pong"` is consumed silently; `"registered"` sets `isRegistered` and clears
the registration interval without notifying anyone; every other frame is
delivered to each message listener in order. -/
def onmessage (s : WSState) (data : String) : WSState × Out :=
  if s.isAppClosing then (s, Out.quiet)
  else if data == "pong" then (s, Out.quiet)
  else if data == "registered" then
    ({ s with isRegistered := true, registrationInterval := none }, Out.quiet)
  else (s, { Out.quiet with msgs := s.listeners })

/-- The `onclose` handler (lines 117-146): suppressed when `isAppClosing`;
otherwise clears both intervals, resets both flags, notifies connection
listeners with `false`, and schedules a single reconnect (a call to
`connect()`) after a fixed 3000 ms delay. -/
def onclose (s : WSState) : WSState × Out :=
  if s.isAppClosing then (s, Out.quiet)
  else
    ({ s with
        isConnected := false
        isRegistered := false
        heartbeatInterval := none
        registrationInterval := none
        reconnectTimeout := some 3000 },
     { Out.quiet with status := [false] })

/-- The `onerror` handler (lines 148-158): suppressed when `isAppClosing`;
otherwise resets both flags, notifies connection listeners with `false`, and
closes the socket so that `onclose` runs the reconnect path. -/
def onerror (s : WSState) : WSState × Out :=
  if s.isAppClosing then (s, Out.quiet)
  else
    ({ s with isConnected := false, isRegistered := false, ws := closeSock s.ws },
     { Out.quiet with status := [false], closedSocket := s.ws.isSome })

/-- One tick of the heartbeat interval callback (lines 68-85): with an open
socket it writes `"ping"`; with a present socket that is neither open nor
connecting it resets the flags, notifies `false`, clears the heartbeat
interval and force-closes the socket; otherwise it does nothing. -/
def heartbeatTick (s : WSState) : WSState × Out :=
  if socketOpen s then (s, { Out.quiet with frames := ["ping"] })
  else if socketPresentNotConnecting s then
    ({ s with
        isConnected := false
        isRegistered := false
        heartbeatInterval := none
        ws := closeSock s.ws },
     { Out.quiet with status := [false], closedSocket := true })
  else (s, Out.quiet)

/-- One tick of the registration interval callback (lines 174-195): when
connected with an open socket and not yet registered, it increments
`registrationAttempts` and then either sends another `register` frame (while
the counter is still `≤ maxRegistrationAttempts`) or clears the interval;
when already registered it clears the interval; otherwise it does nothing. -/
def registrationTick (s : WSState) : WSState × Out :=
  if s.isConnected && socketOpen s && !s.isRegistered then
    let s1 := { s with registrationAttempts := s.registrationAttempts + 1 }
    if s1.registrationAttempts ≤ s1.maxRegistrationAttempts then
      (s1, { Out.quiet with frames := sendRegistrationFrames s1 })
    else
      ({ s1 with registrationInterval := none }, Out.quiet)
  else if s.isRegistered then
    ({ s with registrationInterval := none }, Out.quiet)
  else (s, Out.quiet)

/-- `disconnect()` (lines 209-243): sets `isAppClosing`, clears all three
timers, closes and drops the socket, and resets both status flags.  -/
def disconnectFn (s : WSState) : WSState × Out :=
  ({ s with
      isAppClosing := true
      reconnectTimeout := none
      heartbeatInterval := none
      registrationInterval := none
      ws := none
      isConnected := false
      isRegistered := false },
   { Out.quiet with closedSocket := s.ws.isSome })

/-- Outcome of `send(message)` (lines 246-253).  `raisedError` is expressible
so that the documented `NotConnected` failure can be stated, but the code
never produces it: the not-open branch only logs a warning. -/
inductive SendOutcome where
  | written
  | droppedWarn
  | raisedError
deriving DecidableEq, Repr

/-- `send(message)`: writes the payload when the socket is open, otherwise
logs a warning and drops it.  Returns the outcome and the frames actually
written; the service state is untouched and there is no queue to place the
message in. -/
def wsSend (s : WSState) (msg : String) : SendOutcome × List String :=
  if socketOpen s then (SendOutcome.written, [msg])
  else (SendOutcome.droppedWarn, [])

/-- `addMessageListener` / `addConnectionListener`: a plain `Array.push`, so
duplicates are kept. -/
def addListenerFn (ls : List Nat) (l : Nat) : List Nat :=
  ls ++ [l]

/-- `removeMessageListener` / `removeConnectionListener`: `indexOf` followed
by `splice`, i.e. remove the first occurrence if present, otherwise leave the
array unchanged. -/
def removeListenerFn : List Nat → Nat → List Nat
  | [], _ => []
  | x :: xs, l => if x = l then xs else x :: removeListenerFn xs l

/-- Number of times listener `l` is invoked when an event is dispatched with
`listeners.forEach(listener => listener(event))`: once per occurrence. -/
def notifyCount (ls : List Nat) (l : Nat) : Nat :=
  ls.count l

/-- Events the event loop can deliver to the service after construction:
transport callbacks on the current socket, and firings of the three timers.
A timer firing is only effective while its handle is scheduled (`isSome`);
a cleared timer never runs.  `reconnectFire` performs the scheduled
`connect()` call. -/
inductive Ev where
  | openEvt
  | closeEvt
  | errorEvt
  | msgEvt (data : String)
  | heartbeatFire
  | registrationFire
  | reconnectFire

/-- Dispatch one event against the service state. -/
def step (s : WSState) : Ev → WSState × Out
  | Ev.openEvt => onopen s
  | Ev.closeEvt => onclose s
  | Ev.errorEvt => onerror s
  | Ev.msgEvt d => onmessage s d
  | Ev.heartbeatFire =>
      if s.heartbeatInterval.isSome then heartbeatTick s else (s, Out.quiet)
  | Ev.registrationFire =>
      if s.registrationInterval.isSome then registrationTick s else (s, Out.quiet)
  | Ev.reconnectFire =>
      if s.reconnectTimeout.isSome then
        ((connectFn s).fst, { Out.quiet with closedSocket := (connectFn s).snd })
      else (s, Out.quiet)

/-- Run a list of events in order, collecting every step's output. -/
def runEvents : WSState → List Ev → WSState × List Out
  | s, [] => (s, [])
  | s, e :: rest =>
      ((runEvents (step s e).fst rest).fst,
       (step s e).snd :: (runEvents (step s e).fst rest).snd)

/-- The field values the class constructor establishes. -/
def initState : WSState :=
  { ws := none
    reconnectTimeout := none
    heartbeatInterval := none
    registrationInterval := none
    isConnected := false
    isRegistered := false
    listeners := []
    connectionListeners := []
    isAppClosing := false
    registrationAttempts := 0
    maxRegistrationAttempts := 10 }

/-- The state right after a fresh `connect()` whose socket has reached
`OPEN` and whose `onopen` handler has run, with a server that never answers:
connected, unregistered, heartbeat and registration intervals scheduled,
attempt counter at 0. -/
def scenarioOpen : WSState :=
  { ws := some { readyState := ReadyState.opened }
    reconnectTimeout := none
    heartbeatInterval := some 30000
    registrationInterval := some 2000
    isConnected := true
    isRegistered := false
    listeners := []
    connectionListeners := []
    isAppClosing := false
    registrationAttempts := 0
    maxRegistrationAttempts := 10 }

/-- After `disconnect()`: shutdown flag set, every timer cleared, socket
dropped. -/
def shutdownQuiet (s : WSState) : Prop :=
  s.isAppClosing = true ∧ s.reconnectTimeout = none ∧
  s.heartbeatInterval = none ∧ s.registrationInterval = none ∧ s.ws = none

/-- Registration-counter invariant: with the default cap of 10, the counter
never passes 11, and while the registration interval is still scheduled it is
at most 10. -/
def regInv (s : WSState) : Prop :=
  s.maxRegistrationAttempts = 10 ∧
  s.registrationAttempts ≤ 11 ∧
  (s.registrationInterval.isSome = true → s.registrationAttempts ≤ 10)

/-- The connection-related facts `sendAudioChunk` can observe at one point of
its execution: `conversationModeRef.current` and the two status getters of
the service singleton. -/
structure ChatObs where
  conversationMode : Bool
  connected : Bool
  registered : Bool
deriving DecidableEq, Repr

/-- What `sendAudioChunk` does with one chunk: hand it to
`invoke('send_websocket_audio', ...)`, or return early.  There is no third
alternative — no queue and no retry exists in the function. -/
inductive ChunkOutcome where
  | sent
  | dropped
deriving DecidableEq, Repr

/-- `sendAudioChunk` (Chat.tsx lines 442-525) as a function of the
observations at its two synchronous segments.  `s0` is the state seen by the
entry segment (the `conversationModeRef.current` check at line 444 and the
duplicated connected/registered checks at lines 455-492, all before any
`await`); `s1` is the state seen by the final pre-send check at line 507,
after `await audioBlob.arrayBuffer()` and the 50 ms stabilisation delay, so
the two observations can differ.  Note the final check reads only
`getIsConnected`/`getIsRegistered`: conversation mode is not re-read. -/
def sendAudioChunk (s0 s1 : ChatObs) : ChunkOutcome :=
  if !s0.conversationMode then ChunkOutcome.dropped
  else if !(s0.connected && s0.registered) then ChunkOutcome.dropped
  else if !(s0.connected && s0.registered) then ChunkOutcome.dropped
  else if !(s1.connected && s1.registered) then ChunkOutcome.dropped
  else ChunkOutcome.sent

/-- Playback-related state of the `Chat` component: the set of `Audio`
elements currently playing (by clip id) and the `isPlaying`/`currentAudio`
React state, which track only the most recent clip. -/
structure PlaybackState where
  playing : List Nat
  isPlaying : Bool
  currentAudio : Option Nat
deriving DecidableEq, Repr

/-- The `websocket-binary` listener (Chat.tsx lines 106-151) on arrival of
one binary frame: a fresh `Audio` element is created and `audio.play()` is
called immediately — the handler never consults `isPlaying` and keeps no
queue, so the new clip starts regardless of clips already playing.  Its
`onplay` callback sets `isPlaying` and `currentAudio`. -/
def onBinaryFrame (s : PlaybackState) (clip : Nat) : PlaybackState :=
  { playing := s.playing ++ [clip]
    isPlaying := true
    currentAudio := some clip }

/-- The `onended` callback of one clip: that clip stops, and the shared
`isPlaying`/`currentAudio` state is reset even if other clips are still
playing. -/
def onAudioEnded (s : PlaybackState) (clip : Nat) : PlaybackState :=
  { playing := s.playing.filter (fun c => c != clip)
    isPlaying := false
    currentAudio := none }

/-- Arrival of several binary frames in order, with no completion in
between. -/
def onBinaryFrames (s : PlaybackState) (clips : List Nat) : PlaybackState :=
  clips.foldl onBinaryFrame s

/-- Sum of squared deviations from the 128 centre over one
`getByteTimeDomainData` window (the loop at Chat.tsx lines 642-646). -/
def sumSquares (w : List Nat) : Int :=
  w.foldl (fun acc v => acc + ((v : Int) - 128) * ((v : Int) - 128)) 0

/-- The `volume > 2` test of `detectAudio` (line 651), stated without square
roots: `rms = sqrt(sumSquares / length)` exceeds 2 exactly when
`sumSquares > 4 * length` (and the empty window, whose JS `rms` is `NaN`,
compares false on both sides). -/
def windowActive (w : List Nat) : Bool :=
  decide (4 * (w.length : Int) < sumSquares w)

/-- Voice-activity state of the `Chat` component: the `isAudioActive` React
flag and the pending `activityTimeoutRef` timeout (delay in ms) if any. -/
structure VadState where
  isAudioActive : Bool
  activityTimeout : Option Nat
deriving DecidableEq, Repr

/-- One iteration of the `detectAudio` animation-frame loop (Chat.tsx lines
629-683) on a sample window: it sets `isAudioActive` to the current window's
threshold test unconditionally, clears any pending activity timeout, and —
only when the window is active — schedules a 500 ms timeout that will turn
the flag off.  The previous state is otherwise ignored: in particular a
previously-true flag is not held. -/
def detectAudio (_prev : VadState) (w : List Nat) : VadState :=
  let isActive := windowActive w
  { isAudioActive := isActive
    activityTimeout := if isActive then some 500 else none }

/-- Firing of the scheduled activity timeout (line 674-679): turns
`isAudioActive` off. -/
def activityTimeoutFire (_prev : VadState) : VadState :=
  { isAudioActive := false, activityTimeout := none }

/-! ## C1: chunk gating in `sendAudioChunk` -/

/-- C1 counterexample: with conversation mode, connected and registered all
true during the entry checks, but conversation mode switched off by the time
of the final pre-send check (connected and registered still true there), the
chunk is still handed to the socket-send path — the final pre-send check does
not re-read conversation mode, so the claimed "conversation mode is still
logically active at the final check" condition is not required for a send. -/
theorem sendAudioChunk_sends_after_capture_stop :
    sendAudioChunk
        { conversationMode := true, connected := true, registered := true }
        { conversationMode := false, connected := true, registered := true }
      = ChunkOutcome.sent ∧
    ({ conversationMode := false, connected := true, registered := true } : ChatObs).conversationMode
      = false := by
  decide

/-- C1 amended: a chunk is handed to the socket-send path exactly when
conversation mode, connected and registered all hold at the entry checks and
connected and registered (but not conversation mode) still hold at the final
pre-send check; in every other case the chunk is dropped, and the outcome
type has no queued or retried alternative. -/
theorem sendAudioChunk_gating (s0 s1 : ChatObs) :
    (sendAudioChunk s0 s1 = ChunkOutcome.sent ↔
      (s0.conversationMode = true ∧ s0.connected = true ∧ s0.registered = true ∧
       s1.connected = true ∧ s1.registered = true)) ∧
    (sendAudioChunk s0 s1 ≠ ChunkOutcome.sent ↔
      sendAudioChunk s0 s1 = ChunkOutcome.dropped) := by
  obtain ⟨a, b, c⟩ := s0
  obtain ⟨d, e, f⟩ := s1
  cases a <;> cases b <;> cases c <;> cases d <;> cases e <;> cases f <;> decide

/-! ## C4: playback of received binary frames -/

/-- C4 counterexample: a binary frame arriving while one clip is already
playing is played immediately — the listener keeps no queue — so two clips
play at the same instant, contradicting "at any instant at most one received
audio clip is playing". -/
theorem binary_frame_overlaps_playback :
    ((onBinaryFrame { playing := [0], isPlaying := true, currentAudio := some 0 } 1).playing.length = 2) ∧
    ¬((onBinaryFrame { playing := [0], isPlaying := true, currentAudio := some 0 } 1).playing.length ≤ 1) := by
  decide

/-- C4 amended: each of the N arriving frames starts playing immediately on
arrival, in arrival order, while every clip already playing keeps playing:
after N arrivals the playing set is the old playing set extended by the N
clips in order.  There is no queue, so concurrent clips overlap instead of
serialising. -/
theorem binary_frames_append (s : PlaybackState) (clips : List Nat) :
    (onBinaryFrames s clips).playing = s.playing ++ clips := by
  induction clips generalizing s with
  | nil => simp [onBinaryFrames]
  | cons c cs ih =>
    calc (onBinaryFrames s (c :: cs)).playing
        = (onBinaryFrames (onBinaryFrame s c) cs).playing := rfl
      _ = (onBinaryFrame s c).playing ++ cs := ih (onBinaryFrame s c)
      _ = s.playing ++ (c :: cs) := by simp [onBinaryFrame]

/-! ## C6: voice-activity hold time -/

/-- C6 (code bug): the `detectAudio` loop sets `isAudioActive` to the current
window's threshold test unconditionally, so one loud window (`[131]`, RMS 3 >
threshold 2) followed by the very next animation-frame window (~16 ms later,
`[128]`, RMS 0) drives the flag from `true` straight back to `false`, far
sooner than the 500 ms dwell promised by the claim and by the code's own
comment "Show activity for at least 500ms". -/
theorem vad_hold_violated :
    (detectAudio { isAudioActive := false, activityTimeout := none } [131]).isAudioActive = true ∧
    (detectAudio (detectAudio { isAudioActive := false, activityTimeout := none } [131])
        [128]).isAudioActive = false := by
  decide

/-! ## C5: `send` on a socket that is not open -/

/-- C5 counterexample: in the constructor state (no socket, so not open),
`send` returns after only logging a warning and dropping the message — it
does not fail with a `NotConnected` error as the claim states. -/
theorem send_warns_instead_of_raising :
    socketOpen initState = false ∧
    wsSend initState "hello" = (SendOutcome.droppedWarn, []) ∧
    (wsSend initState "hello").fst ≠ SendOutcome.raisedError := by
  decide

/-- C5 amended: `send` writes the payload exactly when the socket is open;
when it is not open the message is dropped with a warning (the spec's
non-fatal `ConnectionUnavailable` behaviour) and no error is ever raised.
The function neither takes nor returns a queue, so no unsent message is
retained. -/
theorem send_open_iff_written (s : WSState) (msg : String) :
    ((wsSend s msg).fst = SendOutcome.written ↔ socketOpen s = true) ∧
    ((wsSend s msg).fst = SendOutcome.droppedWarn ↔ socketOpen s = false) ∧
    ((wsSend s msg).snd = [msg] ↔ socketOpen s = true) ∧
    (wsSend s msg).fst ≠ SendOutcome.raisedError := by
  cases h : socketOpen s <;> simp [wsSend, h]

/-! ## C9: listener registration and removal -/

/-- Removing a listener decreases the array length by one exactly when the
listener is present (`indexOf` finds it). -/
theorem removeListenerFn_length (ls : List Nat) (l : Nat) (h : l ∈ ls) :
    (removeListenerFn ls l).length + 1 = ls.length := by
  induction ls with
  | nil => cases h
  | cons x xs ih =>
    by_cases hx : x = l
    · simp [removeListenerFn, hx]
    · cases h with
      | head => exact absurd rfl hx
      | tail _ h2 =>
        have ih2 := ih h2
        simp only [removeListenerFn, if_neg hx, List.length_cons]
        omega

/-- Removing an absent listener leaves the array unchanged (`indexOf`
returns -1 and no `splice` happens). -/
theorem removeListenerFn_not_mem (ls : List Nat) (l : Nat) (h : l ∉ ls) :
    removeListenerFn ls l = ls := by
  induction ls with
  | nil => rfl
  | cons x xs ih =>
    have hx : ¬ x = l := fun hxl => h (hxl ▸ List.mem_cons_self x xs)
    rw [removeListenerFn, if_neg hx, ih (fun hm => h (List.mem_cons_of_mem x hm))]

/-- C9 counterexample: listener registration is a plain `push`, so adding the
same listener twice yields two array entries and the listener is invoked
twice per event, not once — registration is not idempotent. -/
theorem duplicate_listener_notified_twice :
    notifyCount (addListenerFn (addListenerFn [] 0) 0) 0 = 2 ∧
    notifyCount (addListenerFn [] 0) 0 = 1 ∧
    addListenerFn (addListenerFn [] 0) 0 ≠ addListenerFn [] 0 := by
  decide

/-- C9 amended: adding the same listener twice adds two entries, so it is
notified twice per event (one extra notification per extra registration);
removal deletes only the first matching occurrence, and removing a listener
that is not registered leaves the listener array unchanged — indeed removal
is the identity exactly when the listener is absent. -/
theorem listener_add_remove_semantics (ls : List Nat) (l : Nat) :
    (removeListenerFn ls l = ls ↔ l ∉ ls) ∧
    notifyCount (addListenerFn (addListenerFn ls l) l) l = notifyCount ls l + 2 := by
  constructor
  · constructor
    · intro he hmem
      have hlen := removeListenerFn_length ls l hmem
      rw [he] at hlen
      omega
    · intro hnot
      exact removeListenerFn_not_mem ls l hnot
  · simp [notifyCount, addListenerFn, List.count_append]

/-! ## C10: `connect()` pre-cleanup -/

/-- C10: every call to `connect()`, from any state, leaves no reconnect
timeout, no heartbeat interval and no registration interval scheduled,
resets `isRegistered`, installs a fresh socket in `CONNECTING` state, and
closed the previous socket exactly when one existed — so no timer created
for an earlier connection generation remains scheduled once the new socket
is created. -/
theorem connect_clears_state (s : WSState) :
    (connectFn s).fst.reconnectTimeout = none ∧
    (connectFn s).fst.heartbeatInterval = none ∧
    (connectFn s).fst.registrationInterval = none ∧
    (connectFn s).fst.isRegistered = false ∧
    (connectFn s).fst.ws = some { readyState := ReadyState.connecting } ∧
    ((connectFn s).snd = true ↔ s.ws.isSome = true) :=
  ⟨rfl, rfl, rfl, rfl, rfl, Iff.rfl⟩

/-! ## C7: socket-close handling outside shutdown -/

/-- C7: for a socket-close event not caused by `disconnect()` (the
`isAppClosing` flag is down), the handler clears the heartbeat and
registration intervals, resets both status flags, notifies the status
listeners exactly once with `false`, and schedules exactly one reconnect
with the constant 3000 ms delay; firing that timer performs the `connect()`
call.  The delay is a fixed constant, so retrying continues with the same
3 s spacing after every such close. -/
theorem onclose_schedules_fixed_reconnect (s : WSState) (h : s.isAppClosing = false) :
    onclose s =
      ({ s with
          isConnected := false
          isRegistered := false
          heartbeatInterval := none
          registrationInterval := none
          reconnectTimeout := some 3000 },
       { Out.quiet with status := [false] }) ∧
    (step (onclose s).fst Ev.reconnectFire).fst = (connectFn (onclose s).fst).fst := by
  constructor
  · simp [onclose, h]
  · simp [onclose, h, step]

/-- Witness for C7 at the constructor state, whose shutdown flag is down. -/
theorem onclose_schedules_fixed_reconnect_witness :
    onclose initState =
      ({ initState with
          isConnected := false
          isRegistered := false
          heartbeatInterval := none
          registrationInterval := none
          reconnectTimeout := some 3000 },
       { Out.quiet with status := [false] }) :=
  (onclose_schedules_fixed_reconnect initState rfl).1

/-! ## C8: idempotence of a repeated `"registered"` frame -/

/-- C8: receiving `"registered"` when the session is already registered (and
the registration interval has therefore already been cleared by the first
acknowledgement, lines 100-105) changes nothing: the resulting state is the
state before the frame, no frame is written, no status or message listener
is invoked, and the attempt counter is untouched. -/
theorem registered_frame_idempotent (s : WSState) (h1 : s.isRegistered = true)
    (h2 : s.registrationInterval = none) :
    onmessage s "registered" = (s, Out.quiet) := by
  have he : ({ s with isRegistered := true, registrationInterval := none } : WSState) = s := by
    rw [← h1, ← h2]
  by_cases hc : s.isAppClosing = true
  · simp [onmessage, hc]
  · simp only [Bool.not_eq_true] at hc
    simp only [onmessage, hc, Bool.false_eq_true, if_false, String.reduceEq, ite_false, ite_true]
    rw [← hc]
    exact congrArg (fun t => (t, Out.quiet)) he

/-- Witness for C8 at a concrete registered state. -/
theorem registered_frame_idempotent_witness :
    onmessage { scenarioOpen with isRegistered := true, registrationInterval := none }
        "registered"
      = ({ scenarioOpen with isRegistered := true, registrationInterval := none }, Out.quiet) :=
  registered_frame_idempotent
    { scenarioOpen with isRegistered := true, registrationInterval := none } rfl rfl

/-! ## C3: shutdown finality -/

/-- In a shut-down state (flag set, every timer cleared, socket dropped)
each possible event — belated transport open/close/error/message callbacks
as well as any timer firing — is completely inert: the state is unchanged
and no frame, notification or close is produced. -/
theorem step_quiet_of_shutdown (s : WSState) (h : shutdownQuiet s) (e : Ev) :
    step s e = (s, Out.quiet) := by
  obtain ⟨h1, h2, h3, h4, h5⟩ := h
  cases s
  simp only at h1 h2 h3 h4 h5
  subst h1 h2 h3 h4 h5
  cases e <;> rfl

/-- Running any event sequence from a shut-down state changes nothing and
produces one silent output per event. -/
theorem runEvents_quiet_of_shutdown (s : WSState) (h : shutdownQuiet s) (evs : List Ev) :
    runEvents s evs = (s, List.replicate evs.length Out.quiet) := by
  induction evs with
  | nil => rfl
  | cons e rest ih =>
    simp [runEvents, step_quiet_of_shutdown s h e, ih, List.replicate]

/-- C3: after `disconnect()` no reconnect timeout, heartbeat interval or
registration interval remains scheduled, and every later event — including a
belated socket close or error delivered by the transport, and any
hypothetical timer firing — leaves the state unchanged and produces no
frame, no listener notification, no scheduled reconnect and no socket
close: `isAppClosing` suppresses all the handlers, and a cleared timer never
fires. -/
theorem shutdown_finality (s : WSState) (evs : List Ev) :
    runEvents (disconnectFn s).fst evs =
      ((disconnectFn s).fst, List.replicate evs.length Out.quiet) ∧
    (disconnectFn s).fst.reconnectTimeout = none ∧
    (disconnectFn s).fst.heartbeatInterval = none ∧
    (disconnectFn s).fst.registrationInterval = none := by
  refine ⟨?_, rfl, rfl, rfl⟩
  exact runEvents_quiet_of_shutdown (disconnectFn s).fst ⟨rfl, rfl, rfl, rfl, rfl⟩ evs

/-! ## C2: the registration attempt cap -/

/-- Every event preserves the registration-counter invariant: each tick of
the registration interval increments the counter at most once and clears the
interval as soon as the counter passes the cap, and `onopen` resets the
counter to 0 before rescheduling the interval. -/
theorem step_regInv (s : WSState) (e : Ev) (h : regInv s) : regInv (step s e).fst := by
  obtain ⟨hm, hle, hsome⟩ := h
  cases e with
  | openEvt =>
    simp only [step, onopen]
    split
    · exact ⟨hm, hle, hsome⟩
    · exact ⟨hm, Nat.zero_le _, fun _ => Nat.zero_le _⟩
  | closeEvt =>
    simp only [step, onclose]
    split
    · exact ⟨hm, hle, hsome⟩
    · exact ⟨hm, hle, by simp⟩
  | errorEvt =>
    simp only [step, onerror]
    split
    · exact ⟨hm, hle, hsome⟩
    · exact ⟨hm, hle, hsome⟩
  | msgEvt d =>
    simp only [step, onmessage]
    split
    · exact ⟨hm, hle, hsome⟩
    · split
      · exact ⟨hm, hle, hsome⟩
      · split
        · exact ⟨hm, hle, by simp⟩
        · exact ⟨hm, hle, hsome⟩
  | heartbeatFire =>
    simp only [step]
    split
    · simp only [heartbeatTick]
      split
      · exact ⟨hm, hle, hsome⟩
      · split
        · exact ⟨hm, hle, hsome⟩
        · exact ⟨hm, hle, hsome⟩
    · exact ⟨hm, hle, hsome⟩
  | registrationFire =>
    simp only [step]
    split
    · next hi =>
      have hcur : s.registrationAttempts ≤ 10 := hsome hi
      simp only [registrationTick]
      split
      · split
        · next hle2 =>
          have hinc : s.registrationAttempts + 1 ≤ s.maxRegistrationAttempts := hle2
          refine ⟨hm, ?_, fun _ => ?_⟩
          · show s.registrationAttempts + 1 ≤ 11
            omega
          · show s.registrationAttempts + 1 ≤ 10
            omega
        · refine ⟨hm, ?_, by simp⟩
          show s.registrationAttempts + 1 ≤ 11
          omega
      · split
        · exact ⟨hm, hle, by simp⟩
        · exact ⟨hm, hle, hsome⟩
    · exact ⟨hm, hle, hsome⟩
  | reconnectFire =>
    simp only [step]
    split
    · exact ⟨hm, hle, by simp [connectFn]⟩
    · exact ⟨hm, hle, hsome⟩

/-- The registration-counter invariant is preserved along any event
sequence. -/
theorem runEvents_regInv (s : WSState) (evs : List Ev) (h : regInv s) :
    regInv (runEvents s evs).fst := by
  induction evs generalizing s with
  | nil => exact h
  | cons e rest ih => exact ih (step s e).fst (step_regInv s e h)

/-- C2 counterexample: starting from the open-unregistered state with a
server that never acknowledges, after the 11 ticks it takes the registration
interval to give up the attempt counter stands at 11 — it exceeds the
configured maximum of 10, because the tick increments the counter before
comparing it against the cap.  Along those 11 ticks exactly 10 retry frames
are written (the 11th tick sends nothing and clears the interval). -/
theorem registration_counter_reaches_eleven :
    (runEvents scenarioOpen (List.replicate 11 Ev.registrationFire)).fst.registrationAttempts = 11 ∧
    ¬((runEvents scenarioOpen (List.replicate 11 Ev.registrationFire)).fst.registrationAttempts
        ≤ scenarioOpen.maxRegistrationAttempts) ∧
    scenarioOpen.maxRegistrationAttempts = 10 ∧
    ((runEvents scenarioOpen (List.replicate 11 Ev.registrationFire)).snd.foldl
        (fun acc o => acc + o.frames.length) 0) = 10 ∧
    (runEvents scenarioOpen (List.replicate 11 Ev.registrationFire)).fst.registrationInterval
      = none := by
  decide

/-- C2 amended: under the invariant that holds from construction onward
(cap = 10, counter ≤ 11, counter ≤ 10 while the interval is scheduled), the
counter never exceeds cap + 1 = 11 along any event sequence; once the
interval has been cleared a registration-timer firing is completely inert
(in particular no further `register:` frame is written) until the next
socket open, which resets the counter to 0 and restarts the interval. -/
theorem registration_cap (s : WSState) (evs : List Ev) (h : regInv s) :
    regInv (runEvents s evs).fst ∧
    (runEvents s evs).fst.registrationAttempts ≤ s.maxRegistrationAttempts + 1 ∧
    (s.registrationInterval = none → step s Ev.registrationFire = (s, Out.quiet)) ∧
    (s.isAppClosing = false → (onopen s).fst.registrationAttempts = 0) := by
  have hrun := runEvents_regInv s evs h
  refine ⟨hrun, ?_, ?_, ?_⟩
  · have := hrun.2.1
    rw [h.1]
    omega
  · intro hnone
    simp [step, hnone]
  · intro hc
    simp [onopen, hc]

/-- Witness for C2 at the concrete open-unregistered state, with the exact
silent-server event sequence of the claim. -/
theorem registration_cap_witness :
    regInv scenarioOpen ∧
    regInv (runEvents scenarioOpen (List.replicate 11 Ev.registrationFire)).fst ∧
    (runEvents scenarioOpen (List.replicate 11 Ev.registrationFire)).fst.registrationAttempts
      ≤ scenarioOpen.maxRegistrationAttempts + 1 := by
  have h : regInv scenarioOpen := by
    refine ⟨rfl, ?_, ?_⟩ <;> simp [scenarioOpen]
  have happ := registration_cap scenarioOpen (List.replicate 11 Ev.registrationFire) h
  exact ⟨h, happ.1, happ.2.1⟩

end LilyUI
